import Mathlib

/-!
# FemBalance ML core — shallow embedding and verification

This file embeds the deterministic core of the FemBalance ML service
(`src/ml/src/models/cycle_prediction_model.py`,
`src/ml/src/models/pcos_risk_model.py`,
`src/ml/src/utils/validation_utils.py`, `src/ml/src/utils/constants.py`)
into Lean 4 and proves/refutes the frozen specification claims.

Modelling conventions:
* Python floats are modelled as `ℚ` (the claims concern order, bounds and
  exact branch structure, none of which depend on binary rounding).
* Python `dict`s of features and single-row DataFrames are modelled as
  association lists `List (String × _)`; a missing key is the absence of an
  entry, pandas `NaN` cell values are `Option.none`.
* Calendar dates are a `(year, month, day)` structure with the standard
  civil-calendar day-number conversion, so date differences and
  `timedelta` arithmetic are integer arithmetic on day numbers.
* `df['cycle_length'].std()` (pandas sample standard deviation, `ddof=1`)
  is the square root of `sampleVariance`, which is irrational in general;
  the embedding threads the standard deviation as a parameter `σ`
  constrained by `IsSampleStd σ values` (`σ ≥ 0` and the sample variance
  is defined — at least two non-NaN values — and equals `σ²`), keeping
  every definition executable over `ℚ`.  Histories whose std is NaN
  (fewer than two non-NaN cycle lengths) admit no such `σ` and lie
  outside the theorems that assume one.
* The outputs of the opaque trained scikit-learn estimators
  (`predict` / `predict_proba` of the bundled models) are free parameters
  of the embedded prediction functions, since the claims quantify over
  arbitrary base-model outputs.
-/

/-! ## Calendar dates (`datetime.date` / day-number arithmetic) -/

/-- A civil calendar date, as produced by `datetime.fromisoformat`. -/
structure Date where
  year : ℤ
  month : ℤ
  day : ℤ
deriving DecidableEq, Repr

/-- Day number of a civil date (days since 1970-01-01), the standard
civil-from-days algorithm; subtracting two day numbers models
`(d2 - d1).days` on `datetime` values. -/
def daysFromCivil (y m d : ℤ) : ℤ :=
  let y' := if m ≤ 2 then y - 1 else y
  let era := (if 0 ≤ y' then y' else y' - 399) / 400
  let yoe := y' - era * 400
  let mp := if 2 < m then m - 3 else m + 9
  let doy := (153 * mp + 2) / 5 + d - 1
  let doe := yoe * 365 + yoe / 4 - yoe / 100 + doy
  era * 146097 + doe - 719468

/-- Day number of a `Date`. -/
def Date.toDays (d : Date) : ℤ :=
  daysFromCivil d.year d.month d.day

/-! ## Python numeric primitives -/

/-- Python `int(x)` on a float: truncation toward zero. -/
def pyInt (q : ℚ) : ℤ :=
  if 0 ≤ q then ⌊q⌋ else -⌊-q⌋

/-- Python 3 `round(x)` on a float: round half to even (banker's rounding). -/
def pyRound (q : ℚ) : ℤ :=
  if q - ⌊q⌋ < 1/2 then ⌊q⌋
  else if 1/2 < q - ⌊q⌋ then ⌊q⌋ + 1
  else if ⌊q⌋ % 2 = 0 then ⌊q⌋ else ⌊q⌋ + 1

/-- `numpy.clip(x, lo, hi) = min(max(x, lo), hi)`. -/
def npClip (x lo hi : ℚ) : ℚ :=
  min (max x lo) hi

/-- Python `max(a, b, c)` on numbers. -/
def pyMax3 (a b c : ℚ) : ℚ :=
  max (max a b) c

/-- Mean of a list of rationals (`pandas.Series.mean` over the non-NaN
cells; the empty case, which pandas renders as NaN, is never reached by
the theorems below). -/
def ratMean (xs : List ℚ) : ℚ :=
  xs.sum / xs.length

/-- Pandas sample variance (`ddof = 1`): `Σ (x - mean)² / (n - 1)` over
the non-NaN cells.  For fewer than two values pandas yields NaN, which
has no `ℚ` counterpart, so the result is `Option ℚ` with `none` for
that case. -/
def sampleVariance (xs : List ℚ) : Option ℚ :=
  if xs.length < 2 then none
  else some ((xs.map (fun x => (x - ratMean xs) ^ 2)).sum / (xs.length - 1))

/-- `s` is the value of `pandas.Series.std()` (sample standard deviation)
of `xs`: the nonnegative square root of the sample variance.  When the
variance is NaN (`none` — fewer than two non-NaN values, e.g. a mixed
history with a single supplied cycle_length) no rational `s` satisfies
this, keeping such NaN-std histories outside every theorem that assumes
it. -/
def IsSampleStd (s : ℚ) (xs : List ℚ) : Prop :=
  0 ≤ s ∧ sampleVariance xs = some (s ^ 2)

/-! ## Cycle records and `CyclePredictionModel.process_cycle_data` -/

/-- A raw cycle record as received by the cycle model after date parsing:
`{start_date, cycle_length?, period_length?}`.  A `none` field models a
key that is absent from the record dict (hence a NaN cell when some other
record does supply the column). -/
structure CycleRecord where
  start_date : Date
  cycle_length : Option ℚ
  period_length : Option ℚ
deriving DecidableEq, Repr

/-- A processed cycle row (output of `process_cycle_data`): cycle_length
may still be NaN (mixed input columns), period_length is always filled. -/
structure ProcessedRecord where
  start_date : Date
  cycle_length : Option ℚ
  period_length : ℚ
deriving DecidableEq, Repr

/-- Strict before-comparison on start dates. -/
def cycleLT (a b : CycleRecord) : Bool :=
  a.start_date.toDays < b.start_date.toDays

/-- Insert a record after every strictly earlier record (stable insert). -/
def insertByDate (r : CycleRecord) : List CycleRecord → List CycleRecord
  | [] => [r]
  | x :: xs => if cycleLT x r then x :: insertByDate r xs else r :: x :: xs

/-- `df.sort_values('start_date')`: ascending sort by start date, as a
stable insertion sort (pandas' default quicksort is unstable, but no
claim depends on the order of records sharing a start date). -/
def sortCycles : List CycleRecord → List CycleRecord
  | [] => []
  | r :: rs => insertByDate r (sortCycles rs)

/-- The `cycle_length` column when it is absent from the DataFrame:
`df['start_date'].diff().dt.days` filled with 28 for the first row
(`cycle_prediction_model.py` lines 51–53). -/
def diffFill : List CycleRecord → List (Option ℚ)
  | [] => []
  | r :: rs =>
    some 28 ::
      ((r :: rs).zip rs).map
        (fun p => some ((p.2.start_date.toDays - p.1.start_date.toDays : ℤ) : ℚ))

/-- `CyclePredictionModel.process_cycle_data`: sort ascending by
start_date; derive the cycle_length column from date differences only
when **no** record supplies it (pandas creates the column as soon as any
record has the key, leaving NaN in the others, and the code only fills it
in the column-absent case); fill missing period_length with 5. -/
def process_cycle_data (cycles : List CycleRecord) :
    Except String (List ProcessedRecord) :=
  if cycles.isEmpty then .error "No cycle data provided"
  else
    let sorted := sortCycles cycles
    let lengths : List (Option ℚ) :=
      if sorted.all (fun r => r.cycle_length.isNone) then diffFill sorted
      else sorted.map (fun r => r.cycle_length)
    .ok (sorted.zipWith
      (fun r len =>
        { start_date := r.start_date
          cycle_length := len
          period_length := r.period_length.getD 5 })
      lengths)

/-! ## `CyclePredictionModel.engineer_features` -/

/-- `CyclePredictionModel._get_season`: month → season 0–3. -/
def get_season (date : Date) : ℤ :=
  if date.month = 12 ∨ date.month = 1 ∨ date.month = 2 then 0
  else if date.month = 3 ∨ date.month = 4 ∨ date.month = 5 then 1
  else if date.month = 6 ∨ date.month = 7 ∨ date.month = 8 then 2
  else 3

/-- The regularity score of `cycle_prediction_model.py` line 90:
`max(0, 1 - cycle_std / 7)`. -/
def cycleRegularityOfStd (cycle_std : ℚ) : ℚ :=
  max 0 (1 - cycle_std / 7)

/-- `CyclePredictionModel.engineer_features`.  `σ` is the value of
`df['cycle_length'].std()` (see `IsSampleStd`), `now` is `datetime.now()`.
Returns the feature dict as an association list in insertion order.
With fewer than 2 rows the code returns the short default dict of
**seven** entries — `days_since_last` and `cycle_std` are not among them. -/
def engineer_features (σ : ℚ) (now : Date) (cycles : List CycleRecord) :
    Except String (List (String × ℚ)) := do
  let df ← process_cycle_data cycles
  if df.length < 2 then
    return [("avg_cycle_length", 28),
            ("cycle_regularity", 1/2),
            ("avg_period_length", 5),
            ("trend_slope", 0),
            ("recent_avg", 28),
            ("season", (get_season now : ℚ)),
            ("cycles_count", (df.length : ℚ))]
  else
    let lengths := df.filterMap (fun r => r.cycle_length)
    let avg_cycle_length := ratMean lengths
    let avg_period_length := ratMean (df.map (fun r => r.period_length))
    let cycle_regularity := cycleRegularityOfStd σ
    let recent_cycles :=
      if 4 ≤ df.length then
        ratMean ((df.drop (df.length - 3)).filterMap (fun r => r.cycle_length))
      else avg_cycle_length
    let trend_slope :=
      if 4 ≤ df.length then
        (recent_cycles -
          ratMean ((df.take (df.length - 3)).filterMap (fun r => r.cycle_length)))
          / df.length
      else 0
    let last_date := (df.getLast?.map (fun r => r.start_date)).getD now
    let season := get_season last_date
    let days_since_last := now.toDays - last_date.toDays
    return [("avg_cycle_length", avg_cycle_length),
            ("cycle_regularity", cycle_regularity),
            ("avg_period_length", avg_period_length),
            ("trend_slope", trend_slope),
            ("recent_avg", recent_cycles),
            ("season", (season : ℚ)),
            ("cycles_count", (df.length : ℚ)),
            ("days_since_last", (days_since_last : ℚ)),
            ("cycle_std", σ)]

/-! ## `CyclePredictionModel.predict` -/

/-- Python dict indexing `features[key]`: raises `KeyError` when absent. -/
def lookupOrKeyError (features : List (String × ℚ)) (k : String) :
    Except String ℚ :=
  match features.lookup k with
  | some v => .ok v
  | none => .error ("KeyError: " ++ k)

/-- The 9-entry feature array of `predict` (lines 240–250), by dict lookup
in the code's order; any missing key raises `KeyError`. -/
def buildFeatureArray (features : List (String × ℚ)) :
    Except String (List ℚ) := do
  let a1 ← lookupOrKeyError features "avg_cycle_length"
  let a2 ← lookupOrKeyError features "cycle_regularity"
  let a3 ← lookupOrKeyError features "avg_period_length"
  let a4 ← lookupOrKeyError features "trend_slope"
  let a5 ← lookupOrKeyError features "recent_avg"
  let a6 ← lookupOrKeyError features "season"
  let a7 ← lookupOrKeyError features "cycles_count"
  let a8 ← lookupOrKeyError features "days_since_last"
  let a9 ← lookupOrKeyError features "cycle_std"
  return [a1, a2, a3, a4, a5, a6, a7, a8, a9]

/-- Python `max(xs, key=f)` starting from `a`: keeps the first element
whose key is maximal. -/
def pyMaxBy (key : CycleRecord → ℤ) : CycleRecord → List CycleRecord → CycleRecord
  | a, [] => a
  | a, b :: t => pyMaxBy key (if key a < key b then b else a) t

/-- The cycle prediction result.  Dates are day numbers.
`cycle_phase_predictions`, `model_version` and `timestamp` of the source
result dict are omitted (no claim concerns them). -/
structure CyclePrediction where
  predicted_start_date : ℤ
  predicted_cycle_length : ℤ
  confidence : ℚ
  fertile_start : ℤ
  fertile_end : ℤ
  ovulation : ℤ
deriving DecidableEq, Repr

/-- `CyclePredictionModel.predict`.  `rf` and `lr` are the scalar outputs
of the two opaque trained regressors on the scaled feature array (the
scaler and the estimators are external model artifacts), `σ` the sample
standard deviation of the cycle lengths, `now` is `datetime.now()`.
The `is_trained` guard is a precondition of supplying `rf`/`lr`. -/
def cycle_predict (rf lr σ : ℚ) (now : Date) (cycles : List CycleRecord) :
    Except String CyclePrediction := do
  let features ← engineer_features σ now cycles
  let _arr ← buildFeatureArray features
  let predicted_length := max 21 (min 45 (7/10 * rf + 3/10 * lr))
  match cycles with
  | [] => .error "max() arg is an empty sequence"
  | c :: cs =>
    let last_cycle := pyMaxBy (fun r => r.start_date.toDays) c cs
    let last_start := last_cycle.start_date.toDays
    let last_length := last_cycle.cycle_length.getD 28
    let predicted_start := last_start + pyInt last_length
    let model_agreement := 1 - |rf - lr| / pyMax3 rf lr 1
    let regularity ← lookupOrKeyError features "cycle_regularity"
    let confidence := npClip ((model_agreement + regularity) / 2) 0 1
    let ovulation := predicted_start + (pyInt predicted_length - 14)
    return { predicted_start_date := predicted_start
             predicted_cycle_length := pyRound predicted_length
             confidence := confidence
             fertile_start := ovulation - 5
             fertile_end := ovulation + 1
             ovulation := ovulation }

/-! ## PCOS risk model (`pcos_risk_model.py`) -/

/-- `FEATURE_COLUMNS['pcos_risk']` from `constants.py`. -/
def pcosFeatureColumns : List String :=
  ["age", "bmi", "cycle_length", "period_length", "exercise_frequency",
   "stress_level", "sleep_quality", "family_history", "symptom_count"]

/-- The five derived feature names appended by
`PCOSRiskModel.engineer_features` (lines 101–102). -/
def pcosDerivedFeatureNames : List String :=
  ["bmi_category", "cycle_irregular", "period_category",
   "lifestyle_risk", "age_group"]

/-- The mutable per-instance state that `PCOSRiskModel.predict` touches:
`self.feature_columns` (the `model` and `scaler` attributes are never
reassigned during prediction and are kept out of the state). -/
structure PCOSState where
  feature_columns : List String
deriving DecidableEq, Repr

/-- The state of a freshly constructed `PCOSRiskModel`. -/
def pcosInitState : PCOSState :=
  { feature_columns := pcosFeatureColumns }

/-- A single-row DataFrame: column name ↦ cell, where a `none` cell is
pandas NaN.  Booleans are modelled pre-cast as `0`/`1` (the
`astype(int)` cast in `preprocess_data` is the identity on them). -/
abbrev ProfileRow := List (String × Option ℚ)

/-- `pd.cut(x, bins, labels=[0,1,...])` on a scalar: index of the
right-closed bin `(bins[i], bins[i+1]]` containing `x`, NaN outside. -/
def pdCutAux (x : ℚ) (i : ℚ) : List ℚ → Option ℚ
  | lo :: hi :: rest =>
    if lo < x ∧ x ≤ hi then some i else pdCutAux x (i + 1) (hi :: rest)
  | _ => none

/-- `pd.cut` lifted to a possibly-NaN cell (NaN stays NaN). -/
def pdCutOpt (v : Option ℚ) (bins : List ℚ) : Option ℚ :=
  v.bind (fun x => pdCutAux x 0 bins)

/-- `cell < c` with pandas NaN semantics (`NaN < c` is false). -/
def optLT (v : Option ℚ) (c : ℚ) : Bool :=
  match v with
  | some x => decide (x < c)
  | none => false

/-- `cell > c` with pandas NaN semantics. -/
def optGT (v : Option ℚ) (c : ℚ) : Bool :=
  match v with
  | some x => decide (c < x)
  | none => false

/-- `PCOSRiskModel.engineer_features` on a single-row DataFrame, with the
state threaded explicitly: appends the five derived columns to the row
and — line 103 of the source — reassigns `self.feature_columns` to
`self.feature_columns + new_features`.  A missing input column raises
inside the `try`, and the `except` branch returns the data unchanged
(the mutation on line 103 is only reached on success). -/
def pcos_engineer_features (s : PCOSState) (row : ProfileRow) :
    PCOSState × ProfileRow :=
  match List.lookup "bmi" row, List.lookup "cycle_length" row,
        List.lookup "period_length" row, List.lookup "exercise_frequency" row,
        List.lookup "stress_level" row, List.lookup "sleep_quality" row,
        List.lookup "age" row with
  | some bmi, some cl, some pl, some ex, some st, some sq, some age =>
    let engineered := row ++
      [("bmi_category", pdCutOpt bmi [0, 37/2, 25, 30, 100]),
       ("cycle_irregular", some (if optLT cl 21 ∨ optGT cl 35 then 1 else 0)),
       ("period_category", pdCutOpt pl [0, 3, 7, 15]),
       ("lifestyle_risk", some
         ((if optLT ex 2 then 1 else 0) + (if optGT st 3 then 1 else 0) +
          (if optLT sq 3 then 1 else 0))),
       ("age_group", pdCutOpt age [0, 18, 25, 35, 100])]
    ({ feature_columns := s.feature_columns ++ pcosDerivedFeatureNames },
     engineered)
  | _, _, _, _, _, _, _ => (s, row)

/-- `PCOSRiskModel.preprocess_data` on a single-row DataFrame: raise on
columns required by `feature_columns` but absent from the row, then
select the columns in `feature_columns` order (duplicated names select
duplicate columns, as in pandas).  `fillna(median)` is the identity on a
single-row batch (a NaN cell has an empty median), and the bool→int cast
is the identity in this encoding. -/
def pcos_preprocess (feature_columns : List String) (row : ProfileRow) :
    Except String (List (Option ℚ)) :=
  let missing :=
    (feature_columns.filter (fun c => (List.lookup c row).isNone)).eraseDups
  if missing.isEmpty then
    .ok (feature_columns.filterMap (fun c => List.lookup c row))
  else
    .error ("Missing required columns: " ++ String.intercalate ", " missing)

/-- `PCOS_RISK_LEVELS` from `constants.py`, in dict insertion order. -/
def pcosRiskLevels : List (String × ℚ × ℚ) :=
  [("low", 0, 3/10), ("moderate", 3/10, 6/10),
   ("high", 6/10, 8/10), ("very_high", 8/10, 1)]

/-- `PCOSRiskModel._get_risk_level`: first bucket with
`min_score <= risk_score < max_score`, else `'very_high'`. -/
def get_risk_level (risk_score : ℚ) : String :=
  match pcosRiskLevels.find?
      (fun e => decide (e.2.1 ≤ risk_score ∧ risk_score < e.2.2)) with
  | some e => e.1
  | none => "very_high"

/-- `PCOSRiskModel._calculate_confidence`. -/
def calculate_confidence (rf_proba gb_proba : ℚ) : ℚ :=
  let agreement := 1 - |rf_proba - gb_proba|
  let certainty := |(rf_proba + gb_proba) / 2 - 1/2| * 2
  npClip ((agreement + certainty) / 2) 0 1

/-- Python `sample.get(key, default)` on a row: the default only covers a
missing key, a present NaN cell stays NaN. -/
def rowGetD (row : ProfileRow) (k : String) (d : ℚ) : Option ℚ :=
  match List.lookup k row with
  | some v => v
  | none => some d

/-- `PCOSRiskModel._get_risk_factors` over the engineered row. -/
def get_risk_factors (sample : ProfileRow) : List String :=
  (if optGT (rowGetD sample "bmi" 0) 25 then ["elevated_bmi"] else []) ++
  (if optGT (rowGetD sample "cycle_length" 28) 35 ∨
      optLT (rowGetD sample "cycle_length" 28) 21 then
    ["irregular_cycles"] else []) ++
  (if rowGetD sample "family_history" 0 = some 1 then
    ["family_history"] else []) ++
  (if optLT (rowGetD sample "exercise_frequency" 3) 2 then
    ["low_exercise"] else []) ++
  (if optGT (rowGetD sample "stress_level" 2) 3 then
    ["high_stress"] else []) ++
  (if optLT (rowGetD sample "sleep_quality" 3) 3 then
    ["poor_sleep"] else [])

/-- The single-row PCOS prediction result (`model_version` and
`timestamp` omitted; no claim concerns them). -/
structure PCOSPrediction where
  risk_score : ℚ
  risk_level : String
  confidence : ℚ
  factors : List String
deriving DecidableEq, Repr

/-- `PCOSRiskModel.predict` on a single-row DataFrame, state threaded
explicitly.  `rf_proba` and `gb_proba` are the class-1 probabilities of
the two opaque trained classifiers on the scaled features (external model
artifacts); the `is_trained` guard is a precondition of supplying them. -/
def pcos_predict (s : PCOSState) (rf_proba gb_proba : ℚ) (row : ProfileRow) :
    PCOSState × Except String PCOSPrediction :=
  let se := pcos_engineer_features s row
  match pcos_preprocess se.1.feature_columns se.2 with
  | .error e => (se.1, .error e)
  | .ok _X =>
    let risk_score := (rf_proba + gb_proba) / 2
    (se.1, .ok
      { risk_score := risk_score
        risk_level := get_risk_level risk_score
        confidence := calculate_confidence rf_proba gb_proba
        factors := get_risk_factors se.2 })

/-! ## Validator (`validation_utils.py`) -/

/-- Whether `y` is a Gregorian leap year. -/
def isLeapYear (y : ℤ) : Bool :=
  y % 4 = 0 ∧ (¬ y % 100 = 0 ∨ y % 400 = 0)

/-- Number of days in month `m` of year `y`. -/
def daysInMonth (y m : ℤ) : ℤ :=
  if m = 2 then (if isLeapYear y then 29 else 28)
  else if m = 4 ∨ m = 6 ∨ m = 9 ∨ m = 11 then 30
  else 31

/-- Value of a decimal digit character, `none` for a non-digit. -/
def digitVal (c : Char) : Option ℤ :=
  if c.isDigit then some ((c.toNat : ℤ) - 48) else none

/-- `datetime.fromisoformat` restricted to the date-only subset
`YYYY-MM-DD` that the repository's inputs use (the source also accepts
ISO strings with a time part; the claims below only need the date-only
fragment and strings that are invalid in both).  Validates the calendar
(month 1–12, day within the month). -/
def parseISODate (s : String) : Option Date :=
  match s.toList with
  | [y1, y2, y3, y4, '-', m1, m2, '-', d1, d2] => do
    let a ← digitVal y1
    let b ← digitVal y2
    let c ← digitVal y3
    let e ← digitVal y4
    let f ← digitVal m1
    let g ← digitVal m2
    let h ← digitVal d1
    let i ← digitVal d2
    let y := a * 1000 + b * 100 + c * 10 + e
    let m := f * 10 + g
    let d := h * 10 + i
    if 1 ≤ m ∧ m ≤ 12 ∧ 1 ≤ d ∧ d ≤ daysInMonth y m then
      some ⟨y, m, d⟩
    else none
  | _ => none

/-- A raw cycle record as the validator receives it: unparsed fields,
`none` for an absent (or `None`-valued) key.  `cycle_length` is modelled
already numeric (the `int(...)` conversion failure branch is out of the
claims' scope). -/
structure RawCycle where
  start_date : Option String
  cycle_length : Option ℤ
deriving DecidableEq, Repr

/-- A raw symptom record as the validator receives it. -/
structure RawSymptom where
  type : Option String
  severity : Option ℚ
  date : Option String
deriving DecidableEq, Repr

/-- `valid_categories['symptom_types']` from `DataValidator.__init__`. -/
def symptomTypeNames : List String :=
  ["cramps", "bloating", "mood_swings", "headache", "fatigue",
   "acne", "breast_tenderness", "back_pain", "nausea", "other"]

/-- The field-level errors that `DataValidator.validate_cycle_input`
produces for record `i` (0-based), in the source's order: required-field
checks, date-format check, cycle-length range check. -/
def cycleRecordErrors (i : ℕ) (c : RawCycle) : List String :=
  (if c.start_date.isNone then
    ["Cycle " ++ toString (i + 1) ++ ": Missing required field: start_date"]
  else []) ++
  (if c.cycle_length.isNone then
    ["Cycle " ++ toString (i + 1) ++ ": Missing required field: cycle_length"]
  else []) ++
  (match c.start_date with
   | some s =>
     if (parseISODate s).isNone then
       ["Cycle " ++ toString (i + 1) ++ ": Invalid date format for start_date"]
     else []
   | none => []) ++
  (match c.cycle_length with
   | some l =>
     if ¬ (21 ≤ l ∧ l ≤ 45) then
       ["Cycle " ++ toString (i + 1) ++ ": cycle_length must be between 21 and 45"]
     else []
   | none => [])

/-- The loop of `validate_cycle_input`: errors of all records, record
`k` reported at index `i + k`. -/
def cycleErrorsFrom (i : ℕ) : List RawCycle → List String
  | [] => []
  | c :: cs => cycleRecordErrors i c ++ cycleErrorsFrom (i + 1) cs

/-- `DataValidator.validate_cycle_input`: `(ok, errors)`. -/
def validate_cycle_input (data : List RawCycle) : Bool × List String :=
  if data.isEmpty then (false, ["At least one cycle is required"])
  else
    let errors := cycleErrorsFrom 0 data
    (errors.isEmpty, errors)

/-- The field-level errors that `DataValidator.validate_symptom_input`
produces for record `i` (0-based), in the source's order: required-field
checks, symptom-type check, severity range check, date-format check. -/
def symptomRecordErrors (i : ℕ) (r : RawSymptom) : List String :=
  (if r.type.isNone then
    ["Symptom " ++ toString (i + 1) ++ ": Missing required field: type"]
  else []) ++
  (if r.severity.isNone then
    ["Symptom " ++ toString (i + 1) ++ ": Missing required field: severity"]
  else []) ++
  (if r.date.isNone then
    ["Symptom " ++ toString (i + 1) ++ ": Missing required field: date"]
  else []) ++
  (match r.type with
   | some t =>
     if ¬ t ∈ symptomTypeNames then
       ["Symptom " ++ toString (i + 1) ++ ": Invalid symptom type: " ++ t]
     else []
   | none => []) ++
  (match r.severity with
   | some v =>
     if ¬ (1 ≤ v ∧ v ≤ 10) then
       ["Symptom " ++ toString (i + 1) ++ ": severity must be between 1 and 10"]
     else []
   | none => []) ++
  (match r.date with
   | some s =>
     if (parseISODate s).isNone then
       ["Symptom " ++ toString (i + 1) ++ ": Invalid date format"]
     else []
   | none => [])

/-- The loop of `validate_symptom_input`: errors of all records, record
`k` reported at index `i + k`. -/
def symptomErrorsFrom (i : ℕ) : List RawSymptom → List String
  | [] => []
  | r :: rs => symptomRecordErrors i r ++ symptomErrorsFrom (i + 1) rs

/-- `DataValidator.validate_symptom_input`: `(ok, errors)`. -/
def validate_symptom_input (data : List RawSymptom) : Bool × List String :=
  if data.isEmpty then (false, ["At least one symptom is required"])
  else
    let errors := symptomErrorsFrom 0 data
    (errors.isEmpty, errors)

/-- `validate_date_range(start_date, end_date, max_days)` with `now` the
value of `datetime.now()` truncated to a day number (the sub-day
time-of-day component cannot change any claim below). -/
def validate_date_range (start_s end_s : String) (now : Date)
    (max_days : ℤ) : Bool × String :=
  match parseISODate start_s, parseISODate end_s with
  | some st, some en =>
    if en.toDays ≤ st.toDays then
      (false, "Start date must be before end date")
    else if max_days < en.toDays - st.toDays then
      (false, "Date range cannot exceed " ++ toString max_days ++ " days")
    else if now.toDays + 30 < st.toDays then
      (false, "Start date cannot be more than 30 days in the future")
    else (true, "")
  | _, _ => (false, "Invalid date format")

/-! ## Helper lemmas -/

/-- `pyRound` never rounds below an integer lower bound of its argument. -/
lemma le_pyRound {lo : ℤ} {q : ℚ} (h : (lo : ℚ) ≤ q) : lo ≤ pyRound q := by
  have h0 : lo ≤ ⌊q⌋ := Int.le_floor.mpr h
  unfold pyRound
  split_ifs <;> omega

/-- `pyRound` never rounds above an integer upper bound of its argument. -/
lemma pyRound_le {q : ℚ} {hi : ℤ} (h : q ≤ (hi : ℚ)) : pyRound q ≤ hi := by
  have hfl : (⌊q⌋ : ℚ) ≤ q := Int.floor_le q
  have h0 : ⌊q⌋ ≤ hi := by exact_mod_cast hfl.trans h
  unfold pyRound
  split_ifs with h1 h2 h3
  · exact h0
  · have hq : (⌊q⌋ : ℚ) < (hi : ℚ) := by linarith
    have : ⌊q⌋ < hi := by exact_mod_cast hq
    omega
  · exact h0
  · push_neg at h1 h2
    have hq : (⌊q⌋ : ℚ) < (hi : ℚ) := by linarith
    have : ⌊q⌋ < hi := by exact_mod_cast hq
    omega

/-- The clamp `max(21, min(45, x))` lands in `[21, 45]`. -/
lemma clamp_21_45_mem (x : ℚ) :
    21 ≤ max 21 (min 45 x) ∧ max 21 (min 45 x) ≤ 45 :=
  ⟨le_max_left _ _, max_le (by norm_num) (min_le_left _ _)⟩

/-- `npClip x lo hi` lands in `[lo, hi]` whenever `lo ≤ hi`. -/
lemma npClip_mem {lo hi : ℚ} (x : ℚ) (h : lo ≤ hi) :
    lo ≤ npClip x lo hi ∧ npClip x lo hi ≤ hi :=
  ⟨le_min (le_max_right _ _) h, min_le_right _ _⟩

/-- Inversion of a successful `cycle_predict`: the success exposes the
list head, the regularity feature, and the closed forms of the result
fields. -/
lemma cycle_predict_ok {rf lr σ : ℚ} {now : Date} {cycles : List CycleRecord}
    {r : CyclePrediction} (h : cycle_predict rf lr σ now cycles = .ok r) :
    ∃ (c : CycleRecord) (cs : List CycleRecord) (reg : ℚ),
      cycles = c :: cs ∧
      r.predicted_cycle_length =
        pyRound (max 21 (min 45 (7/10 * rf + 3/10 * lr))) ∧
      r.predicted_start_date =
        (pyMaxBy (fun x => x.start_date.toDays) c cs).start_date.toDays +
          pyInt ((pyMaxBy (fun x => x.start_date.toDays) c cs).cycle_length.getD 28) ∧
      r.confidence = npClip ((1 - |rf - lr| / pyMax3 rf lr 1 + reg) / 2) 0 1 := by
  unfold cycle_predict at h
  cases hf : engineer_features σ now cycles with
  | error e =>
    rw [hf] at h
    simp only [Bind.bind, Except.bind] at h
    simp at h
  | ok features =>
    rw [hf] at h
    simp only [Bind.bind, Except.bind] at h
    cases ha : buildFeatureArray features with
    | error e =>
      rw [ha] at h
      simp at h
    | ok arr =>
      rw [ha] at h
      simp only at h
      cases cycles with
      | nil => simp at h
      | cons c cs =>
        simp only at h
        rw [lookupOrKeyError] at h
        cases hreg : features.lookup "cycle_regularity" with
        | none =>
          rw [hreg] at h
          simp at h
        | some reg =>
          rw [hreg] at h
          simp only [Bind.bind, Except.bind, pure, Except.pure,
            Except.ok.injEq] at h
          subst h
          exact ⟨c, cs, reg, rfl, rfl, rfl, rfl⟩

/-! ## Scenario inputs -/

/-- Scenario A of the spec (§8): three fully specified cycle records. -/
def scenarioARecords : List CycleRecord :=
  [⟨⟨2023, 1, 1⟩, some 28, some 5⟩,
   ⟨⟨2023, 1, 29⟩, some 30, some 4⟩,
   ⟨⟨2023, 2, 28⟩, some 27, some 6⟩]

/-- A history with a single (fully specified) record. -/
def singleRecordHistory : List CycleRecord :=
  [⟨⟨2023, 1, 1⟩, some 28, some 5⟩]

/-! ## Claim theorems -/

/-- **C1.** For every input to the cycle predictor's `predict` and any
scalar outputs `rf`, `lr` of the two base models (0, 100, anything), a
successful prediction returns a `predicted_cycle_length` in `[21, 45]`:
the ensemble value `0.7·rf + 0.3·lr` is clamped to `[21, 45]` before
`int(round(...))`, and the rounding cannot leave the interval. -/
theorem claim1_predicted_cycle_length_clamped :
    ∀ (rf lr σ : ℚ) (now : Date) (cycles : List CycleRecord),
      match cycle_predict rf lr σ now cycles with
      | .ok r => 21 ≤ r.predicted_cycle_length ∧ r.predicted_cycle_length ≤ 45
      | .error _ => True := by
  intro rf lr σ now cycles
  cases h : cycle_predict rf lr σ now cycles with
  | error e => trivial
  | ok r =>
    obtain ⟨c, cs, reg, -, hlen, -, -⟩ := cycle_predict_ok h
    show 21 ≤ r.predicted_cycle_length ∧ r.predicted_cycle_length ≤ 45
    rw [hlen]
    obtain ⟨h1, h2⟩ := clamp_21_45_mem (7/10 * rf + 3/10 * lr)
    exact ⟨le_pyRound (by exact_mod_cast h1), pyRound_le (by exact_mod_cast h2)⟩

/-- **C2.** The claim asserts that a `<2`-record history yields the full
9-entry default feature set with `days_since_last = 0` and
`cycle_std = 0`.  The code's default branch returns only 7 entries:
`days_since_last` and `cycle_std` are absent, and `predict` consequently
dies with a `KeyError` on any single-record history — the code
contradicts its own feature-array construction (lines 240–250), which
requires all 9 keys. -/
theorem claim2_sparse_history_default_features_incomplete :
    (∀ σ : ℚ,
      (engineer_features σ ⟨2023, 3, 5⟩ singleRecordHistory).toOption.bind
        (fun fs => fs.lookup "days_since_last") = none) ∧
    (∀ σ : ℚ,
      (engineer_features σ ⟨2023, 3, 5⟩ singleRecordHistory).toOption.bind
        (fun fs => fs.lookup "cycle_std") = none) ∧
    (∀ σ : ℚ,
      engineer_features σ ⟨2023, 3, 5⟩ singleRecordHistory =
        .ok [("avg_cycle_length", 28),
             ("cycle_regularity", 1/2),
             ("avg_period_length", 5),
             ("trend_slope", 0),
             ("recent_avg", 28),
             ("season", 1),
             ("cycles_count", 1)]) ∧
    (∀ rf lr σ : ℚ,
      cycle_predict rf lr σ ⟨2023, 3, 5⟩ singleRecordHistory =
        .error "KeyError: days_since_last") :=
  ⟨fun _ => rfl, fun _ => rfl, fun _ => rfl, fun _ _ _ => rfl⟩

/-- **C4.** A successful cycle prediction anchors `predicted_start_date`
at the most recent record's own `start_date + cycle_length` (default 28),
independent of the freshly predicted length; on scenario A
(`2023-01-01/28`, `2023-01-29/30`, `2023-02-28/27`) it equals
`2023-02-28 + 27 days = 2023-03-27` for arbitrary base-model outputs. -/
theorem claim4_predicted_start_anchored_to_last_known_cycle :
    (∀ (rf lr σ : ℚ) (now : Date) (c : CycleRecord) (cs : List CycleRecord),
      match cycle_predict rf lr σ now (c :: cs) with
      | .ok r =>
        r.predicted_start_date =
          (pyMaxBy (fun x => x.start_date.toDays) c cs).start_date.toDays +
            pyInt ((pyMaxBy (fun x => x.start_date.toDays) c cs).cycle_length.getD 28)
      | .error _ => True) ∧
    (∀ rf lr σ : ℚ,
      (cycle_predict rf lr σ ⟨2023, 3, 5⟩ scenarioARecords).toOption.map
        (fun r => r.predicted_start_date) = some (daysFromCivil 2023 3 27)) := by
  constructor
  · intro rf lr σ now c cs
    cases h : cycle_predict rf lr σ now (c :: cs) with
    | error e => trivial
    | ok r =>
      obtain ⟨c', cs', reg, heq, -, hstart, -⟩ := cycle_predict_ok h
      injection heq with h1 h2
      subst h1; subst h2
      show r.predicted_start_date = _
      exact hstart
  · intro rf lr σ
    rfl

/-- **C6.** Every successful prediction of either predictor returns a
confidence in `[0, 1]`: both the cycle predictor's
`np.clip((model_agreement + regularity)/2, 0, 1)` and the PCOS
predictor's `_calculate_confidence` clamp their value, for arbitrary
base-model outputs (including disagreement driving the raw agreement
term below 0). -/
theorem claim6_confidence_clamped_unit_interval :
    (∀ (rf lr σ : ℚ) (now : Date) (cycles : List CycleRecord),
      match cycle_predict rf lr σ now cycles with
      | .ok r => 0 ≤ r.confidence ∧ r.confidence ≤ 1
      | .error _ => True) ∧
    (∀ p1 p2 : ℚ,
      0 ≤ calculate_confidence p1 p2 ∧ calculate_confidence p1 p2 ≤ 1) := by
  constructor
  · intro rf lr σ now cycles
    cases h : cycle_predict rf lr σ now cycles with
    | error e => trivial
    | ok r =>
      obtain ⟨c, cs, reg, -, -, -, hconf⟩ := cycle_predict_ok h
      show 0 ≤ r.confidence ∧ r.confidence ≤ 1
      rw [hconf]
      exact npClip_mem _ (by norm_num)
  · intro p1 p2
    unfold calculate_confidence
    exact npClip_mem _ (by norm_num)

/-- The risk-level bucket table exactly as the spec words it (§4.4 step
4): low on `[0, 0.3)`, moderate on `[0.3, 0.6)`, high on `[0.6, 0.8)`,
very_high on `[0.8, 1]` — a total, non-overlapping partition of `[0,1]`.
Kept separate from `get_risk_level` (translated from the source) so the
two can be compared. -/
def specRiskBucket (x : ℚ) : String :=
  if x < 3/10 then "low"
  else if x < 6/10 then "moderate"
  else if x < 8/10 then "high"
  else "very_high"

/-- **C3.** Every successful PCOS prediction returns
`risk_score = (rf_proba + gb_proba)/2` with `risk_level` derived from it
by `_get_risk_level`; the score lies in `[0,1]` whenever the two class-1
probabilities do; and on `[0,1]` the source's first-matching-bucket
lookup agrees with the spec's partition everywhere — in particular a
score of exactly 1 falls through to `'very_high'`. -/
theorem claim3_risk_score_average_and_level_partition :
    (∀ (s : PCOSState) (rf gb : ℚ) (row : ProfileRow),
      match (pcos_predict s rf gb row).2 with
      | .ok r =>
        r.risk_score = (rf + gb) / 2 ∧
        r.risk_level = get_risk_level r.risk_score
      | .error _ => True) ∧
    (∀ rf gb : ℚ, 0 ≤ rf → rf ≤ 1 → 0 ≤ gb → gb ≤ 1 →
      0 ≤ (rf + gb) / 2 ∧ (rf + gb) / 2 ≤ 1) ∧
    (∀ x : ℚ, 0 ≤ x → x ≤ 1 → get_risk_level x = specRiskBucket x) ∧
    get_risk_level 1 = "very_high" := by
  refine ⟨?_, ?_, ?_, ?_⟩
  · intro s rf gb row
    unfold pcos_predict
    cases h : pcos_preprocess (pcos_engineer_features s row).1.feature_columns
        (pcos_engineer_features s row).2 with
    | error e => simp [h]
    | ok X => simp [h]
  · intro rf gb h1 h2 h3 h4
    constructor <;> linarith
  · intro x h0 h1
    unfold get_risk_level pcosRiskLevels specRiskBucket
    rcases lt_or_le x (3/10) with ha | ha
    · rw [List.find?_cons_of_pos _ (by simp [h0, ha])]
      simp [ha]
    · rw [List.find?_cons_of_neg _ (by simp [ha])]
      rcases lt_or_le x (6/10) with hb | hb
      · rw [List.find?_cons_of_pos _ (by simp [ha, hb])]
        simp [hb, not_lt.mpr ha]
      · rw [List.find?_cons_of_neg _ (by simp [hb])]
        rcases lt_or_le x (8/10) with hc | hc
        · rw [List.find?_cons_of_pos _ (by simp [hb, hc])]
          simp [hc, not_lt.mpr ha, not_lt.mpr hb]
        · rw [List.find?_cons_of_neg _ (by simp [hc])]
          rcases lt_or_le x 1 with hd | hd
          · rw [List.find?_cons_of_pos _ (by simp [hc, hd])]
            simp [not_lt.mpr ha, not_lt.mpr hb, not_lt.mpr hc]
          · rw [List.find?_cons_of_neg _ (by simp [not_lt.mpr hd])]
            simp [not_lt.mpr ha, not_lt.mpr hb, not_lt.mpr hc]
  · unfold get_risk_level pcosRiskLevels
    rw [List.find?_cons_of_neg _ (by norm_num)]
    rw [List.find?_cons_of_neg _ (by norm_num)]
    rw [List.find?_cons_of_neg _ (by norm_num)]
    rw [List.find?_cons_of_neg _ (by norm_num)]
    rfl

/-- Witness for the hypotheses of
`claim3_risk_score_average_and_level_partition`: both probability bounds
hold at `rf = gb = 1`, and the partition hypothesis holds at the
boundary score `x = 1`. -/
theorem claim3_risk_score_witness :
    (0 ≤ ((1:ℚ) + 1) / 2 ∧ ((1:ℚ) + 1) / 2 ≤ 1) ∧
    get_risk_level 1 = specRiskBucket 1 :=
  ⟨claim3_risk_score_average_and_level_partition.2.1 1 1
      (by decide) (by decide) (by decide) (by decide),
   claim3_risk_score_average_and_level_partition.2.2.1 1
      (by decide) (by decide)⟩

/-- Scenario B of the spec (§8): a fully unremarkable profile.
`family_history: false` is encoded as the cell `0` (the validator and
`preprocess_data` cast booleans to `{0,1}`). -/
def profileB : ProfileRow :=
  [("age", some 25), ("bmi", some (45/2)), ("cycle_length", some 28),
   ("period_length", some 5), ("exercise_frequency", some 3),
   ("stress_level", some 2), ("family_history", some 0),
   ("sleep_quality", some 3)]

/-- **C7.** On the scenario-B profile the engineered derived fields are
`bmi_category = 1`, `cycle_irregular = 0`, `lifestyle_risk = 0`,
`age_group = 1` exactly as claimed — but the prediction does **not**
succeed: `FEATURE_COLUMNS['pcos_risk']` demands a `symptom_count` column
that neither the validator requires nor any caller supplies, so
`preprocess_data` raises `Missing required columns` before any risk
level can be returned, for arbitrary base-model probabilities. -/
theorem claim7_scenario_b_fields_but_prediction_fails :
    List.lookup "bmi_category"
        (pcos_engineer_features pcosInitState profileB).2 = some (some 1) ∧
    List.lookup "cycle_irregular"
        (pcos_engineer_features pcosInitState profileB).2 = some (some 0) ∧
    List.lookup "lifestyle_risk"
        (pcos_engineer_features pcosInitState profileB).2 = some (some 0) ∧
    List.lookup "age_group"
        (pcos_engineer_features pcosInitState profileB).2 = some (some 1) ∧
    (∀ rf gb : ℚ,
      (pcos_predict pcosInitState rf gb profileB).2 =
        .error "Missing required columns: symptom_count") := by
  refine ⟨?_, ?_, ?_, ?_, fun _ _ => by rfl⟩ <;>
  · norm_num [pcos_engineer_features, profileB, pcosInitState, pdCutOpt,
      pdCutAux, optLT, optGT, List.lookup]
    rfl

/-- **C8.** A single call to the PCOS predictor's `predict` does *not*
leave the stored state unchanged: `engineer_features` reassigns
`self.feature_columns`, appending the five derived names, so the
declared feature-column list grows from 9 to 14 entries during the call
(the spec itself flags this source mutation as the bug to eliminate). -/
theorem claim8_predict_mutates_feature_columns :
    (pcos_predict pcosInitState (1/2) (1/2) profileB).1.feature_columns =
      pcosFeatureColumns ++ pcosDerivedFeatureNames ∧
    (pcos_predict pcosInitState (1/2) (1/2) profileB).1.feature_columns ≠
      pcosInitState.feature_columns ∧
    (pcos_predict pcosInitState (1/2) (1/2) profileB).1.feature_columns.length = 14 ∧
    pcosInitState.feature_columns.length = 9 :=
  ⟨by rfl, by decide, by rfl, by rfl⟩

/-- **C5.** For every cycle history whose cycle-length column has a
defined sample standard deviation `σ` — at least two non-NaN values,
the only case in which "the cycle-length standard deviation" denotes a
number at all (with exactly one non-NaN value pandas `std` is NaN and
the feature becomes `max(0, 1 − nan/7) = 0.0`, outside this rational
model) — the engineered `cycle_regularity` feature is exactly
`max(0, 1 − σ/7)`, and as a function of that standard deviation it is
monotonically non-increasing and never negative. -/
theorem claim5_cycle_regularity_formula :
    (∀ (σ : ℚ) (now : Date) (cycles : List CycleRecord)
        (df : List ProcessedRecord),
      process_cycle_data cycles = .ok df →
      IsSampleStd σ (df.filterMap (fun r => r.cycle_length)) →
      (engineer_features σ now cycles).toOption.bind
          (fun fs => fs.lookup "cycle_regularity") =
        some (cycleRegularityOfStd σ)) ∧
    (∀ s1 s2 : ℚ, 0 ≤ s1 → s1 ≤ s2 →
      cycleRegularityOfStd s2 ≤ cycleRegularityOfStd s1) ∧
    (∀ s : ℚ, 0 ≤ cycleRegularityOfStd s) := by
  refine ⟨?_, ?_, ?_⟩
  · intro σ now cycles df hdf hstd
    have hvar := hstd.2
    have hvals : ¬ (df.filterMap (fun r => r.cycle_length)).length < 2 := by
      intro hlt
      rw [sampleVariance, if_pos hlt] at hvar
      exact Option.noConfusion hvar
    have hlen : 2 ≤ df.length :=
      le_trans (not_lt.mp hvals) (List.length_filterMap_le _ _)
    unfold engineer_features
    rw [hdf]
    simp only [Bind.bind, Except.bind]
    rw [if_neg (by omega)]
    rfl
  · intro s1 s2 _h0 h12
    unfold cycleRegularityOfStd
    exact max_le_max le_rfl (by linarith)
  · intro s
    exact le_max_left 0 _

/-- A 3-record history whose cycle lengths `[21, 28, 35]` have sample
variance exactly `49`, so the sample standard deviation is the rational
`7`. -/
def regularityWitnessRecords : List CycleRecord :=
  [⟨⟨2023, 1, 1⟩, some 21, some 5⟩,
   ⟨⟨2023, 1, 22⟩, some 28, some 5⟩,
   ⟨⟨2023, 2, 19⟩, some 35, some 5⟩]

/-- The processed frame of `regularityWitnessRecords`. -/
def regularityWitnessDf : List ProcessedRecord :=
  [⟨⟨2023, 1, 1⟩, some 21, 5⟩,
   ⟨⟨2023, 1, 22⟩, some 28, 5⟩,
   ⟨⟨2023, 2, 19⟩, some 35, 5⟩]

/-- `7` really is the sample standard deviation of the witness history's
cycle lengths. -/
lemma regularityWitnessStd :
    IsSampleStd 7 (regularityWitnessDf.filterMap (fun r => r.cycle_length)) := by
  have h : regularityWitnessDf.filterMap (fun r => r.cycle_length) =
      [21, 28, 35] := by rfl
  rw [IsSampleStd, h]
  constructor
  · norm_num
  · rw [sampleVariance, if_neg (by norm_num)]
    norm_num [ratMean, List.sum_cons, List.sum_nil,
      List.map_cons, List.map_nil, List.length_cons, List.length_nil]

/-- Witness for the hypotheses of `claim5_cycle_regularity_formula`:
the history with cycle lengths `[21, 28, 35]` has the exact sample
standard deviation 7, and the monotonicity hypotheses hold at
`s1 = 1, s2 = 2`. -/
theorem claim5_cycle_regularity_witness :
    (engineer_features 7 ⟨2023, 3, 1⟩ regularityWitnessRecords).toOption.bind
        (fun fs => fs.lookup "cycle_regularity") =
      some (cycleRegularityOfStd 7) ∧
    cycleRegularityOfStd 2 ≤ cycleRegularityOfStd 1 :=
  ⟨claim5_cycle_regularity_formula.1 7 ⟨2023, 3, 1⟩ regularityWitnessRecords
      regularityWitnessDf (by rfl) regularityWitnessStd,
   claim5_cycle_regularity_formula.2.1 1 2 (by decide) (by decide)⟩

/-- The per-record cycle-length derivation exactly as the claim words it:
each record whose `cycle_length` is absent gets the day-difference from
the previous record's start date, the first record (no predecessor)
defaults to 28, and records that do supply a value keep it.  Kept
separate from `process_cycle_data` (translated from the source) so the
two can be compared. -/
def specDerivedLengthsGo (prev : CycleRecord) : List CycleRecord → List (Option ℚ)
  | [] => []
  | r :: rs =>
    some (r.cycle_length.getD
      ((r.start_date.toDays - prev.start_date.toDays : ℤ) : ℚ)) ::
      specDerivedLengthsGo r rs

/-- See `specDerivedLengthsGo`: the claim's derivation over a sorted
record list. -/
def specDerivedLengths : List CycleRecord → List (Option ℚ)
  | [] => []
  | r :: rs => some (r.cycle_length.getD 28) :: specDerivedLengthsGo r rs

/-- Projecting the cycle-length column back out of the rows built by
`process_cycle_data`. -/
lemma map_cycle_length_zipWith :
    ∀ (as : List CycleRecord) (bs : List (Option ℚ)), bs.length = as.length →
      (List.zipWith
        (fun r len =>
          ({ start_date := r.start_date
             cycle_length := len
             period_length := r.period_length.getD 5 } : ProcessedRecord)) as bs).map
        (fun r => r.cycle_length) = bs := by
  intro as
  induction as with
  | nil =>
    intro bs h
    cases bs with
    | nil => rfl
    | cons b bs => simp at h
  | cons a as ih =>
    intro bs h
    cases bs with
    | nil => simp at h
    | cons b bs =>
      simp only [List.zipWith_cons_cons, List.map_cons, List.cons.injEq]
      exact ⟨by trivial, ih bs (by simpa using h)⟩

/-- `diffFill` fills one length per row. -/
lemma diffFill_length : ∀ l : List CycleRecord, (diffFill l).length = l.length := by
  intro l
  cases l with
  | nil => rfl
  | cons r rs =>
    simp [diffFill, List.length_zip]

/-- Membership is preserved by the stable insert. -/
lemma mem_insertByDate {a r : CycleRecord} :
    ∀ l : List CycleRecord, a ∈ insertByDate r l ↔ a = r ∨ a ∈ l := by
  intro l
  induction l with
  | nil => simp [insertByDate]
  | cons x xs ih =>
    unfold insertByDate
    by_cases hc : cycleLT x r
    · rw [if_pos hc]
      simp only [List.mem_cons, ih]
      tauto
    · rw [if_neg hc]
      simp only [List.mem_cons]

/-- Sorting does not change the set of records. -/
lemma mem_sortCycles {a : CycleRecord} :
    ∀ l : List CycleRecord, a ∈ sortCycles l ↔ a ∈ l := by
  intro l
  induction l with
  | nil => simp [sortCycles]
  | cons x xs ih =>
    unfold sortCycles
    rw [mem_insertByDate, ih]
    simp

/-- On a run of records that all lack `cycle_length`, the source's
whole-column date-difference derivation agrees with the claim's
per-record derivation. -/
lemma zip_diff_eq_specGo :
    ∀ (rs : List CycleRecord) (prev : CycleRecord),
      (∀ r ∈ rs, r.cycle_length = none) →
      ((prev :: rs).zip rs).map
        (fun p => some ((p.2.start_date.toDays - p.1.start_date.toDays : ℤ) : ℚ)) =
      specDerivedLengthsGo prev rs := by
  intro rs
  induction rs with
  | nil => intro prev _; rfl
  | cons x xs ih =>
    intro prev hall
    simp only [List.zip_cons_cons, List.map_cons, specDerivedLengthsGo,
      hall x (by simp), Option.getD_none, List.cons.injEq]
    exact ⟨by trivial, ih x (fun r hr => hall r (by simp [hr]))⟩

/-- On an all-missing column, `diffFill` is the claim's derivation. -/
lemma diffFill_eq_spec_of_none :
    ∀ l : List CycleRecord, (∀ r ∈ l, r.cycle_length = none) →
      diffFill l = specDerivedLengths l := by
  intro l hall
  cases l with
  | nil => rfl
  | cons r rs =>
    simp only [diffFill, specDerivedLengths, hall r (by simp),
      Option.getD_none, List.cons.injEq]
    exact ⟨by trivial, zip_diff_eq_specGo rs r (fun x hx => hall x (by simp [hx]))⟩

/-- Counterexample to **C9** as stated: in the mixed two-record history
`[{2023-01-01, cycle_length 28}, {2023-01-29, no cycle_length}]` the
second record's missing `cycle_length` is *not* derived as the 28-day
difference from the previous record — pandas creates the column from the
record that has it and the source only fills date differences when the
column is entirely absent, so the cell stays NaN. -/
def mixedLengthHistory : List CycleRecord :=
  [⟨⟨2023, 1, 1⟩, some 28, some 5⟩, ⟨⟨2023, 1, 29⟩, none, some 5⟩]

/-- The processed output of `mixedLengthHistory`: the second row keeps
`cycle_length = none` where the claim demands `some 28`. -/
theorem claim9_counterexample :
    process_cycle_data mixedLengthHistory =
      .ok [⟨⟨2023, 1, 1⟩, some 28, 5⟩, ⟨⟨2023, 1, 29⟩, none, 5⟩] ∧
    specDerivedLengths (sortCycles mixedLengthHistory) = [some 28, some 28] ∧
    ([⟨⟨2023, 1, 1⟩, some 28, 5⟩, ⟨⟨2023, 1, 29⟩, none, 5⟩] :
        List ProcessedRecord).map (fun r => r.cycle_length) ≠
      specDerivedLengths (sortCycles mixedLengthHistory) := by
  refine ⟨by rfl, by rfl, ?_⟩
  intro h
  simp only [List.map_cons, List.map_nil] at h
  have h2 : specDerivedLengths (sortCycles mixedLengthHistory) =
      [some 28, some 28] := by rfl
  rw [h2] at h
  simp at h

/-- **C9 (amended).** The date-difference derivation applies only when
*no* record in the list supplies `cycle_length` (the DataFrame column is
absent): then, after the ascending sort, the first record defaults to 28
and every later record gets the day-difference from its predecessor.
When at least one record supplies `cycle_length`, the sorted records
keep their own values and records omitting it stay missing (NaN) — they
are *not* derived. -/
theorem claim9_amended_length_derivation :
    ∀ (cycles : List CycleRecord) (l : List ProcessedRecord),
      process_cycle_data cycles = .ok l →
      ((∀ r ∈ cycles, r.cycle_length = none) →
        l.map (fun r => r.cycle_length) = specDerivedLengths (sortCycles cycles)) ∧
      ((¬ ∀ r ∈ cycles, r.cycle_length = none) →
        l.map (fun r => r.cycle_length) =
          (sortCycles cycles).map (fun r => r.cycle_length)) := by
  intro cycles l h
  unfold process_cycle_data at h
  by_cases he : cycles.isEmpty
  · rw [if_pos he] at h
    simp at h
  · rw [if_neg he] at h
    simp only [Except.ok.injEq] at h
    subst h
    constructor
    · intro hall
      have hall' : ∀ r ∈ sortCycles cycles, r.cycle_length = none :=
        fun r hr => hall r ((mem_sortCycles cycles).mp hr)
      have hcond : (sortCycles cycles).all (fun r => r.cycle_length.isNone) = true := by
        rw [List.all_eq_true]
        intro r hr
        simp [hall' r hr]
      rw [if_pos hcond, map_cycle_length_zipWith _ _ (diffFill_length _)]
      exact diffFill_eq_spec_of_none _ hall'
    · intro hmix
      push_neg at hmix
      obtain ⟨r, hr, hrn⟩ := hmix
      have hcond : ¬ (sortCycles cycles).all (fun r => r.cycle_length.isNone) = true := by
        intro hc
        rw [List.all_eq_true] at hc
        have := hc r ((mem_sortCycles cycles).mpr hr)
        exact hrn (Option.isNone_iff_eq_none.mp (by simpa using this))
      rw [if_neg hcond, map_cycle_length_zipWith _ _ (by rw [List.length_map])]

/-- A history in which no record supplies `cycle_length`. -/
def allNoneHistory : List CycleRecord :=
  [⟨⟨2023, 1, 1⟩, none, none⟩, ⟨⟨2023, 1, 29⟩, none, some 4⟩]

/-- The processed output of `allNoneHistory`: 28 for the first row, the
28-day date difference for the second. -/
def allNoneProcessed : List ProcessedRecord :=
  [⟨⟨2023, 1, 1⟩, some 28, 5⟩, ⟨⟨2023, 1, 29⟩, some 28, 4⟩]

/-- Witness for the hypotheses of `claim9_amended_length_derivation`:
on `allNoneHistory` the derivation branch applies and agrees with the
claim's per-record rule. -/
theorem claim9_amended_witness :
    allNoneProcessed.map (fun r => r.cycle_length) =
      specDerivedLengths (sortCycles allNoneHistory) :=
  (claim9_amended_length_derivation allNoneHistory allNoneProcessed (by rfl)).1
    (by decide)

/-- If the whole error accumulation is empty, each record's own error
list is empty. -/
lemma cycleErrorsFrom_eq_nil :
    ∀ (data : List RawCycle) (j : ℕ), cycleErrorsFrom j data = [] →
      ∀ (i : ℕ) (c : RawCycle), data.get? i = some c →
        cycleRecordErrors (j + i) c = [] := by
  intro data
  induction data with
  | nil =>
    intro j _ i c hc
    simp at hc
  | cons a as ih =>
    intro j h i c hc
    rw [cycleErrorsFrom] at h
    rw [List.append_eq_nil] at h
    cases i with
    | zero =>
      simp only [List.get?_cons_zero, Option.some.injEq] at hc
      subst hc
      simpa using h.1
    | succ k =>
      have hk : j + (k + 1) = (j + 1) + k := by omega
      rw [hk]
      exact ih (j + 1) h.2 k c (by simpa using hc)

/-- A record whose date does not parse contributes a nonempty error
list. -/
lemma cycleRecordErrors_ne_nil_of_bad_date {i : ℕ} {c : RawCycle} {s : String}
    (hs : c.start_date = some s) (hp : parseISODate s = none) :
    cycleRecordErrors i c ≠ [] := by
  intro hnil
  unfold cycleRecordErrors at hnil
  rw [hs] at hnil
  simp [hp, List.append_eq_nil] at hnil

/-- Symptom analogue of `cycleErrorsFrom_eq_nil`. -/
lemma symptomErrorsFrom_eq_nil :
    ∀ (data : List RawSymptom) (j : ℕ), symptomErrorsFrom j data = [] →
      ∀ (i : ℕ) (r : RawSymptom), data.get? i = some r →
        symptomRecordErrors (j + i) r = [] := by
  intro data
  induction data with
  | nil =>
    intro j _ i r hr
    simp at hr
  | cons a as ih =>
    intro j h i r hr
    rw [symptomErrorsFrom] at h
    rw [List.append_eq_nil] at h
    cases i with
    | zero =>
      simp only [List.get?_cons_zero, Option.some.injEq] at hr
      subst hr
      simpa using h.1
    | succ k =>
      have hk : j + (k + 1) = (j + 1) + k := by omega
      rw [hk]
      exact ih (j + 1) h.2 k r (by simpa using hr)

/-- Symptom analogue of `cycleRecordErrors_ne_nil_of_bad_date`. -/
lemma symptomRecordErrors_ne_nil_of_bad_date {i : ℕ} {r : RawSymptom} {s : String}
    (hs : r.date = some s) (hp : parseISODate s = none) :
    symptomRecordErrors i r ≠ [] := by
  intro hnil
  unfold symptomRecordErrors at hnil
  rw [hs] at hnil
  simp [hp, List.append_eq_nil] at hnil

/-- Counterexample to **C10** as stated: a cycle record and a symptom
record dated 2099-01-01 — far more than 30 days in any present-day
future — sail through validation with `ok = true` and no errors.  The
more-than-30-days-in-the-future rule lives only in
`validate_date_range`, which record validation never calls. -/
theorem claim10_counterexample :
    validate_cycle_input [⟨some "2099-01-01", some 28⟩] = (true, []) ∧
    validate_symptom_input [⟨some "cramps", some 5, some "2099-01-01"⟩] =
      (true, []) ∧
    (⟨2026, 10, 12⟩ : Date).toDays + 30 < (⟨2099, 1, 1⟩ : Date).toDays := by
  refine ⟨by rfl, by rfl, by decide⟩

/-- **C10 (amended).** Record validation fails with a field-level error
whenever a record's date field is present but not parseable as ISO-8601;
the more-than-30-days-in-the-future rejection applies only to
`validate_date_range`'s start date, not to cycle or symptom records. -/
theorem claim10_amended_date_validation :
    (∀ (data : List RawCycle) (i : ℕ) (c : RawCycle) (s : String),
      data.get? i = some c → c.start_date = some s → parseISODate s = none →
      (validate_cycle_input data).1 = false ∧
      (validate_cycle_input data).2 ≠ []) ∧
    (∀ (data : List RawSymptom) (i : ℕ) (r : RawSymptom) (s : String),
      data.get? i = some r → r.date = some s → parseISODate s = none →
      (validate_symptom_input data).1 = false ∧
      (validate_symptom_input data).2 ≠ []) ∧
    (∀ (ss es : String) (now : Date) (max_days : ℤ) (st : Date),
      parseISODate ss = some st → now.toDays + 30 < st.toDays →
      (validate_date_range ss es now max_days).1 = false) := by
  refine ⟨?_, ?_, ?_⟩
  · intro data i c s hget hs hp
    have hne : data ≠ [] := by
      intro hd
      subst hd
      simp at hget
    have herr : cycleErrorsFrom 0 data ≠ [] := by
      intro h0
      have h1 := cycleErrorsFrom_eq_nil data 0 h0 i c hget
      rw [Nat.zero_add] at h1
      exact cycleRecordErrors_ne_nil_of_bad_date hs hp h1
    unfold validate_cycle_input
    rw [if_neg (by simp [hne])]
    exact ⟨by simpa using herr, herr⟩
  · intro data i r s hget hs hp
    have hne : data ≠ [] := by
      intro hd
      subst hd
      simp at hget
    have herr : symptomErrorsFrom 0 data ≠ [] := by
      intro h0
      have h1 := symptomErrorsFrom_eq_nil data 0 h0 i r hget
      rw [Nat.zero_add] at h1
      exact symptomRecordErrors_ne_nil_of_bad_date hs hp h1
    unfold validate_symptom_input
    rw [if_neg (by simp [hne])]
    exact ⟨by simpa using herr, herr⟩
  · intro ss es now max_days st hp hfuture
    unfold validate_date_range
    rw [hp]
    cases he : parseISODate es with
    | none => rfl
    | some en =>
      dsimp only
      by_cases h1 : en.toDays ≤ st.toDays
      · rw [if_pos h1]
      · rw [if_neg h1]
        by_cases h2 : max_days < en.toDays - st.toDays
        · rw [if_pos h2]
        · rw [if_neg h2, if_pos hfuture]

/-- Witness for the hypotheses of `claim10_amended_date_validation`:
an unparseable cycle date, an unparseable symptom date, and a date-range
query starting more than 30 days after `now`. -/
theorem claim10_amended_witness :
    ((validate_cycle_input [⟨some "not-a-date!", some 28⟩]).1 = false ∧
      (validate_cycle_input [⟨some "not-a-date!", some 28⟩]).2 ≠ []) ∧
    ((validate_symptom_input [⟨some "cramps", some 5, some "not-a-date!"⟩]).1 = false ∧
      (validate_symptom_input [⟨some "cramps", some 5, some "not-a-date!"⟩]).2 ≠ []) ∧
    (validate_date_range "2099-01-01" "2099-02-01" ⟨2026, 10, 12⟩ 365).1 = false :=
  ⟨claim10_amended_date_validation.1 [⟨some "not-a-date!", some 28⟩] 0
      ⟨some "not-a-date!", some 28⟩ "not-a-date!" (by rfl) (by rfl) (by rfl),
   claim10_amended_date_validation.2.1
      [⟨some "cramps", some 5, some "not-a-date!"⟩] 0
      ⟨some "cramps", some 5, some "not-a-date!"⟩ "not-a-date!"
      (by rfl) (by rfl) (by rfl),
   claim10_amended_date_validation.2.2 "2099-01-01" "2099-02-01"
      ⟨2026, 10, 12⟩ 365 ⟨2099, 1, 1⟩ (by rfl) (by decide)⟩
